import Mathlib

/-!
Verification of the pythos task-execution engine against its specification.

The definitions below are a shallow embedding of the Python sources:
  * `llm_agent/state/task_state.py`  — the `TaskState` pydantic model,
  * `llm_agent/agent.py`             — the `Agent` engine loop, approval
    gating, debug-breakpoint calls and checkpoint cap,
  * `llm_agent/llm/rate_limiter.py`  — the sliding-window `RateLimiter`,
  * `llm_agent/state/storage/__init__.py` — the `StateStorage` contract and
    its `JsonStateStorage` / `SqliteStateStorage` backends,
  * `llm_agent/tools/base.py`        — `BaseTool.execute` / `ToolResult`.

Python `datetime.utcnow()` is modelled by an injected clock value (`now : Nat`)
passed to every operation that reads the clock; `Dict[str, Any]` values are
modelled as association lists over strings.
-/

namespace Pythos

/-- Metadata dictionaries (`Dict[str, Any]`); values may be a string or the
Python `None`, which we model as `Option String`. -/
abbrev Metadata : Type := List (String × Option String)

/-- Tool argument dictionaries (`Dict[str, Any]`). -/
abbrev Args : Type := List (String × String)

/-- Model of `ToolResult` from `llm_agent/tools/base.py`. -/
structure ToolResult where
  success : Bool
  message : String
  data : Option String
deriving DecidableEq, Repr

/-- Model of `Message` from `llm_agent/state/task_state.py`. -/
structure Message where
  role : String
  content : String
  timestamp : Nat
  metadata : Metadata
deriving DecidableEq, Repr

/-- Model of `UserInput` from `llm_agent/state/task_state.py` (the `response` field is
kept; nothing in the engine ever sets it). -/
structure UserInput where
  content : String
  timestamp : Nat
  metadata : Metadata
  response : Option String
deriving DecidableEq, Repr

/-- Model of `RelatedTask` from `llm_agent/state/task_state.py`. -/
structure RelatedTask where
  task_id : String
  description : String
  relevance_score : ℚ
  completed : Bool
  timestamp : Nat
deriving DecidableEq, Repr

/-- Model of `ToolExecution` from `llm_agent/state/task_state.py`. -/
structure ToolExecution where
  tool_name : String
  args : Args
  result : ToolResult
  timestamp : Nat
deriving DecidableEq, Repr

/-- Model of `TaskState` from `llm_agent/state/task_state.py`, with the pydantic field
defaults of the source realised by `TaskState.init` below. -/
structure TaskState where
  task : Option String
  task_id : Option String
  tool_executions : List ToolExecution
  start_time : Option Nat
  end_time : Option Nat
  is_complete : Bool
  is_failed : Bool
  error_message : Option String
  consecutive_auto_approvals : Nat
  messages : List Message
  user_inputs : List UserInput
  related_tasks : List RelatedTask
  context : List (String × String)
deriving DecidableEq, Repr

/-- The default field values of a freshly constructed `TaskState()`. -/
def TaskState.init : TaskState :=
  { task := none
    task_id := none
    tool_executions := []
    start_time := none
    end_time := none
    is_complete := false
    is_failed := false
    error_message := none
    consecutive_auto_approvals := 0
    messages := []
    user_inputs := []
    related_tasks := []
    context := [] }

/-- Model of `TaskState.start_new_task`: resets per-task fields, keeping `context` and
`related_tasks` for continuity (source comment). -/
def TaskState.start_new_task (s : TaskState) (task task_id : String) (now : Nat) : TaskState :=
  { s with
    task := some task
    task_id := some task_id
    tool_executions := []
    start_time := some now
    end_time := none
    is_complete := false
    is_failed := false
    error_message := none
    consecutive_auto_approvals := 0
    messages := []
    user_inputs := [] }

/-- Model of `TaskState.add_tool_result`: appends a `ToolExecution` record. -/
def TaskState.add_tool_result (s : TaskState) (tool_name : String) (result : ToolResult)
    (args : Args) (now : Nat) : TaskState :=
  { s with tool_executions := s.tool_executions ++ [⟨tool_name, args, result, now⟩] }

/-- Model of `TaskState.add_message`: appends a conversation message. -/
def TaskState.add_message (s : TaskState) (role content : String) (metadata : Metadata)
    (now : Nat) : TaskState :=
  { s with messages := s.messages ++ [⟨role, content, now, metadata⟩] }

/-- Model of `TaskState.add_user_input`: records user input. -/
def TaskState.add_user_input (s : TaskState) (content : String) (metadata : Metadata)
    (now : Nat) : TaskState :=
  { s with user_inputs := s.user_inputs ++ [⟨content, now, metadata, none⟩] }

/-- Model of `TaskState.add_related_task`: appends a related-task reference. -/
def TaskState.add_related_task (s : TaskState) (task_id description : String)
    (relevance_score : ℚ) (completed : Bool) (now : Nat) : TaskState :=
  { s with related_tasks := s.related_tasks ++ [⟨task_id, description, relevance_score, completed, now⟩] }

/-- Model of `TaskState.update_context`: `dict.update` on the context mapping, modelled
as an association-list upsert applied left to right. -/
def upsert {α β : Type} [DecidableEq α] (k : α) (v : β) : List (α × β) → List (α × β)
  | [] => [(k, v)]
  | (k', v') :: rest => if k' = k then (k, v) :: rest else (k', v') :: upsert k v rest

def TaskState.update_context (s : TaskState) (updates : List (String × String)) : TaskState :=
  { s with context := updates.foldl (fun acc kv => upsert kv.1 kv.2 acc) s.context }

/-- Model of `TaskState.mark_complete`. -/
def TaskState.mark_complete (s : TaskState) (now : Nat) : TaskState :=
  { s with is_complete := true, end_time := some now }

/-- Model of `TaskState.mark_failed`: sets `is_failed` and also `is_complete`. -/
def TaskState.mark_failed (s : TaskState) (error_message : String) (now : Nat) : TaskState :=
  { s with
    is_failed := true
    is_complete := true
    error_message := some error_message
    end_time := some now }

/-- Model of `TaskState.reset_auto_approvals`. -/
def TaskState.reset_auto_approvals (s : TaskState) : TaskState :=
  { s with consecutive_auto_approvals := 0 }

/-- Model of `TaskState.increment_auto_approvals`. -/
def TaskState.increment_auto_approvals (s : TaskState) : TaskState :=
  { s with consecutive_auto_approvals := s.consecutive_auto_approvals + 1 }

@[simp] theorem TaskState.add_message_is_complete (s : TaskState) (r c : String) (m : Metadata)
    (n : Nat) : (s.add_message r c m n).is_complete = s.is_complete := rfl

@[simp] theorem TaskState.add_message_is_failed (s : TaskState) (r c : String) (m : Metadata)
    (n : Nat) : (s.add_message r c m n).is_failed = s.is_failed := rfl

@[simp] theorem TaskState.add_message_tool_executions (s : TaskState) (r c : String)
    (m : Metadata) (n : Nat) : (s.add_message r c m n).tool_executions = s.tool_executions := rfl

@[simp] theorem TaskState.add_message_consecutive (s : TaskState) (r c : String) (m : Metadata)
    (n : Nat) :
    (s.add_message r c m n).consecutive_auto_approvals = s.consecutive_auto_approvals := rfl

@[simp] theorem TaskState.add_tool_result_is_complete (s : TaskState) (t : String)
    (r : ToolResult) (a : Args) (n : Nat) :
    (s.add_tool_result t r a n).is_complete = s.is_complete := rfl

@[simp] theorem TaskState.add_tool_result_is_failed (s : TaskState) (t : String)
    (r : ToolResult) (a : Args) (n : Nat) :
    (s.add_tool_result t r a n).is_failed = s.is_failed := rfl

@[simp] theorem TaskState.add_tool_result_consecutive (s : TaskState) (t : String)
    (r : ToolResult) (a : Args) (n : Nat) :
    (s.add_tool_result t r a n).consecutive_auto_approvals = s.consecutive_auto_approvals := rfl

@[simp] theorem TaskState.add_tool_result_tool_executions (s : TaskState) (t : String)
    (r : ToolResult) (a : Args) (n : Nat) :
    (s.add_tool_result t r a n).tool_executions = s.tool_executions ++ [⟨t, a, r, n⟩] := rfl

@[simp] theorem TaskState.reset_auto_approvals_is_complete (s : TaskState) :
    s.reset_auto_approvals.is_complete = s.is_complete := rfl

@[simp] theorem TaskState.reset_auto_approvals_is_failed (s : TaskState) :
    s.reset_auto_approvals.is_failed = s.is_failed := rfl

@[simp] theorem TaskState.reset_auto_approvals_tool_executions (s : TaskState) :
    s.reset_auto_approvals.tool_executions = s.tool_executions := rfl

@[simp] theorem TaskState.reset_auto_approvals_consecutive (s : TaskState) :
    s.reset_auto_approvals.consecutive_auto_approvals = 0 := rfl

@[simp] theorem TaskState.increment_auto_approvals_is_complete (s : TaskState) :
    s.increment_auto_approvals.is_complete = s.is_complete := rfl

@[simp] theorem TaskState.increment_auto_approvals_is_failed (s : TaskState) :
    s.increment_auto_approvals.is_failed = s.is_failed := rfl

@[simp] theorem TaskState.increment_auto_approvals_tool_executions (s : TaskState) :
    s.increment_auto_approvals.tool_executions = s.tool_executions := rfl

@[simp] theorem TaskState.mark_complete_is_complete (s : TaskState) (n : Nat) :
    (s.mark_complete n).is_complete = true := rfl

@[simp] theorem TaskState.mark_failed_is_failed (s : TaskState) (e : String) (n : Nat) :
    (s.mark_failed e n).is_failed = true := rfl

@[simp] theorem TaskState.mark_failed_is_complete (s : TaskState) (e : String) (n : Nat) :
    (s.mark_failed e n).is_complete = true := rfl

/-- The operations of the `TaskState` class, packaged for uniform statements
about all of them. -/
inductive TaskOp
  | startNewTask (task task_id : String) (now : Nat)
  | addToolResult (tool_name : String) (result : ToolResult) (args : Args) (now : Nat)
  | addMessage (role content : String) (metadata : Metadata) (now : Nat)
  | addUserInput (content : String) (metadata : Metadata) (now : Nat)
  | addRelatedTask (task_id description : String) (score : ℚ) (completed : Bool) (now : Nat)
  | updateContext (updates : List (String × String))
  | markComplete (now : Nat)
  | markFailed (error_message : String) (now : Nat)
  | resetAutoApprovals
  | incrementAutoApprovals

def TaskOp.apply (op : TaskOp) (s : TaskState) : TaskState :=
  match op with
  | .startNewTask t id n => s.start_new_task t id n
  | .addToolResult t r a n => s.add_tool_result t r a n
  | .addMessage r c m n => s.add_message r c m n
  | .addUserInput c m n => s.add_user_input c m n
  | .addRelatedTask id d sc cp n => s.add_related_task id d sc cp n
  | .updateContext u => s.update_context u
  | .markComplete n => s.mark_complete n
  | .markFailed e n => s.mark_failed e n
  | .resetAutoApprovals => s.reset_auto_approvals
  | .incrementAutoApprovals => s.increment_auto_approvals

/-- The `TaskState` invariant of the spec: `is_failed ⇒ is_complete`. -/
def TaskState.invariant (s : TaskState) : Prop :=
  s.is_failed = true → s.is_complete = true

instance (s : TaskState) : Decidable s.invariant := by
  unfold TaskState.invariant
  infer_instance

/-- Claim C9: the invariant `is_failed ⇒ is_complete` holds after every
`TaskState` operation: every operation preserves it, `mark_failed` sets both
flags unconditionally, and no operation sets `is_failed` without
`is_complete`. -/
theorem taskState_invariant_preserved (op : TaskOp) (s : TaskState) (e : String) (n : Nat)
    (h : s.invariant) :
    (op.apply s).invariant ∧
      ((TaskOp.markFailed e n).apply s).is_failed = true ∧
      ((TaskOp.markFailed e n).apply s).is_complete = true := by
  refine ⟨?_, rfl, rfl⟩
  cases op with
  | startNewTask t id now => intro hf; simp [TaskOp.apply, TaskState.start_new_task] at hf
  | addToolResult t r a now => exact h
  | addMessage r c m now => exact h
  | addUserInput c m now => exact h
  | addRelatedTask id d sc cp now => exact h
  | updateContext u => exact h
  | markComplete now => intro _; rfl
  | markFailed err now => intro _; rfl
  | resetAutoApprovals => exact h
  | incrementAutoApprovals => exact h

/-- Witness for C9 at a concrete operation and state. -/
theorem taskState_invariant_preserved_witness :
    TaskState.init.invariant ∧
      ((TaskOp.markComplete 3).apply TaskState.init).invariant ∧
      ((TaskOp.markFailed "boom" 4).apply TaskState.init).is_failed = true ∧
      ((TaskOp.markFailed "boom" 4).apply TaskState.init).is_complete = true := by
  have h : TaskState.init.invariant := by decide
  exact ⟨h, taskState_invariant_preserved (TaskOp.markComplete 3) TaskState.init "boom" 4 h⟩

/-- Claim C10: `start_new_task` resets `user_inputs` to the empty sequence
(besides clearing messages, tool executions, flags, the error message and the
auto-approval counter, and re-seeding the timestamps), and `context` and
`related_tasks` are the only fields carried over unchanged from the previous
state. -/
theorem start_new_task_frame (s : TaskState) (t id : String) (now : Nat) :
    (s.start_new_task t id now).user_inputs = [] ∧
      (s.start_new_task t id now).messages = [] ∧
      (s.start_new_task t id now).tool_executions = [] ∧
      (s.start_new_task t id now).start_time = some now ∧
      (s.start_new_task t id now).end_time = none ∧
      (s.start_new_task t id now).is_complete = false ∧
      (s.start_new_task t id now).is_failed = false ∧
      (s.start_new_task t id now).error_message = none ∧
      (s.start_new_task t id now).consecutive_auto_approvals = 0 ∧
      (s.start_new_task t id now).task = some t ∧
      (s.start_new_task t id now).task_id = some id ∧
      (s.start_new_task t id now).context = s.context ∧
      (s.start_new_task t id now).related_tasks = s.related_tasks := by
  refine ⟨rfl, rfl, rfl, rfl, rfl, rfl, rfl, rfl, rfl, rfl, rfl, rfl, rfl⟩

/-!
Checkpoint creation with the engine-side cap, from `Agent._create_checkpoint`
(`llm_agent/agent.py`): if `self.checkpoint_count >= max_checkpoints` the
request returns immediately; otherwise the storage call is attempted inside a
`try` block whose `except` only logs a warning, so no error ever reaches the
caller, and the count is incremented only on success.
-/

/-- The agent-side checkpoint bookkeeping: `Agent.checkpoint_count` together
with the checkpoints (descriptions) recorded by storage for the task. -/
structure CheckpointState where
  checkpoint_count : Nat
  checkpoints : List String
deriving DecidableEq, Repr

/-- Storage-side `create_checkpoint`: raises (`Except.error`) when no prior
`save_state` exists for the task (`stateExists = false`), otherwise appends the
new checkpoint. -/
def storage_create_checkpoint (stateExists : Bool) (description : String)
    (cps : List String) : Except String (List String) :=
  if stateExists then Except.ok (cps ++ [description])
  else Except.error "No state found for task"

/-- Model of `Agent._create_checkpoint`: a total function — a storage failure is caught
and only logged, so the caller never sees an error. -/
def Agent.create_checkpoint (max_checkpoints : Nat) (stateExists : Bool) (description : String)
    (st : CheckpointState) : CheckpointState :=
  if max_checkpoints ≤ st.checkpoint_count then st
  else
    match storage_create_checkpoint stateExists description st.checkpoints with
    | Except.ok cps => ⟨st.checkpoint_count + 1, cps⟩
    | Except.error _ => st

/-- Folding a sequence of checkpoint requests. -/
def Agent.create_checkpoints (max_checkpoints : Nat) (ds : List String)
    (st : CheckpointState) : CheckpointState :=
  ds.foldl (fun acc d => Agent.create_checkpoint max_checkpoints true d acc) st

theorem create_checkpoints_count (N : Nat) (ds : List String) :
    ∀ st : CheckpointState, st.checkpoint_count ≤ N →
      (Agent.create_checkpoints N ds st).checkpoint_count =
        min (st.checkpoint_count + ds.length) N := by
  induction ds with
  | nil =>
    intro st h
    simp [Agent.create_checkpoints, Nat.min_eq_left h]
  | cons d rest ih =>
    intro st h
    by_cases hc : N ≤ st.checkpoint_count
    · have heq : st.checkpoint_count = N := Nat.le_antisymm h hc
      have hstep : Agent.create_checkpoint N true d st = st := by
        simp [Agent.create_checkpoint, hc]
      simp only [Agent.create_checkpoints, List.foldl_cons, hstep]
      have := ih st h
      simp only [Agent.create_checkpoints] at this
      rw [this, heq]
      omega
    · have hlt : st.checkpoint_count < N := Nat.lt_of_not_le hc
      have hstep : Agent.create_checkpoint N true d st =
          ⟨st.checkpoint_count + 1, st.checkpoints ++ [d]⟩ := by
        simp [Agent.create_checkpoint, storage_create_checkpoint, Nat.not_le.mpr hlt]
      simp only [Agent.create_checkpoints, List.foldl_cons, hstep]
      have := ih ⟨st.checkpoint_count + 1, st.checkpoints ++ [d]⟩ hlt
      simp only [Agent.create_checkpoints] at this
      rw [this]
      simp [List.length_cons]
      omega

/-- Claim C5: with `max_checkpoints = N`, after `N` checkpoint requests the
count is `N`; any further request on a state whose count has reached `N` is a
no-op (count stays at `N`, nothing stored, and — the function being total —
no error is raised to the caller), in particular the `(N+1)`-th request after
the first `N`. -/
theorem checkpoint_cap_silently_drops (N : Nat) (ds : List String) (d : String)
    (stateExists : Bool) (st : CheckpointState)
    (hlen : ds.length = N) (hst : N ≤ st.checkpoint_count) :
    (Agent.create_checkpoints N ds ⟨0, []⟩).checkpoint_count = N ∧
      Agent.create_checkpoint N stateExists d st = st ∧
      Agent.create_checkpoint N stateExists d (Agent.create_checkpoints N ds ⟨0, []⟩) =
        Agent.create_checkpoints N ds ⟨0, []⟩ := by
  have hcount : (Agent.create_checkpoints N ds ⟨0, []⟩).checkpoint_count = N := by
    have := create_checkpoints_count N ds ⟨0, []⟩ (Nat.zero_le N)
    simpa [hlen] using this
  refine ⟨hcount, ?_, ?_⟩
  · simp [Agent.create_checkpoint, hst]
  · simp [Agent.create_checkpoint, hcount]

/-- Witness for C5 with `N = 2` and three checkpoint requests. -/
theorem checkpoint_cap_silently_drops_witness :
    (Agent.create_checkpoints 2 ["a", "b"] ⟨0, []⟩).checkpoint_count = 2 ∧
      Agent.create_checkpoint 2 true "c" ⟨2, ["a", "b"]⟩ = ⟨2, ["a", "b"]⟩ ∧
      Agent.create_checkpoint 2 true "c" (Agent.create_checkpoints 2 ["a", "b"] ⟨0, []⟩) =
        Agent.create_checkpoints 2 ["a", "b"] ⟨0, []⟩ :=
  checkpoint_cap_silently_drops 2 ["a", "b"] "c" true ⟨2, ["a", "b"]⟩ (by decide) (by decide)

/-!
The `RateLimiter` from `llm_agent/llm/rate_limiter.py`. `acquire()` runs its
whole body under `async with self.lock` (an `asyncio.Lock`, which is not
reentrant). At capacity it sleeps for `wait = requests[0] - (now - 60)` and
then recursively awaits `self.acquire()` — still inside the outer
`async with self.lock` block, so the inner call waits on a lock that can only
be released once the inner call itself returns.

The model passes the clock explicitly: after `asyncio.sleep(wait)` the new
`time.time()` is `now + wait`. `lockHeld` records whether `self.lock` is
already held by the current call chain: the inner recursive call then blocks
forever, which the model reports as `blockedOnLock`. The `fuel` argument only
bounds the recursion depth for Lean; `none` means the fuel ran out (or the
Python code raised, e.g. `requests[0]` on an empty list when `rpm = 0`).
-/

inductive AcquireOutcome
  | acquired (requests : List ℤ) (time : ℤ)
  | blockedOnLock
deriving DecidableEq, Repr

/-- Model of `RateLimiter.acquire`, with the sliding-window prune
(`while self.requests and self.requests[0] <= window_start: pop(0)`) modelled
by `dropWhile`, and the non-reentrant `asyncio.Lock` modelled by `lockHeld`. -/
def RateLimiter.acquire (rpm : Nat) : (fuel : Nat) → (lockHeld : Bool) →
    (requests : List ℤ) → (now : ℤ) → Option AcquireOutcome
  | 0, _, _, _ => none
  | fuel + 1, lockHeld, requests, now =>
    if lockHeld then some AcquireOutcome.blockedOnLock
    else
      let window_start := now - 60
      let pruned := requests.dropWhile (fun t => decide (t ≤ window_start))
      if rpm ≤ pruned.length then
        match pruned.head? with
        | none => none
        | some oldest =>
          let wait := oldest - window_start
          RateLimiter.acquire rpm fuel true pruned (now + wait)
      else
        some (AcquireOutcome.acquired (pruned ++ [now]) now)

/-- Claim C3 evaluated at the failing input: with `rpm = 1` and one registered
timestamp `0` still inside the window, `acquire()` at time `1` takes the
at-capacity branch, sleeps 59 seconds, and then recursively awaits itself while
the outer invocation still holds `self.lock` — the call blocks forever instead
of returning after the oldest timestamp exits the window. -/
theorem rate_limiter_at_capacity_deadlocks :
    RateLimiter.acquire 1 10 false [0] 1 = some AcquireOutcome.blockedOnLock ∧
      RateLimiter.acquire 1 10 false [0] 1 ≠
        some (AcquireOutcome.acquired [60] 60) := by
  constructor
  · decide
  · decide

/-!
The `StateStorage` contract of `llm_agent/state/storage/__init__.py`.

`StateStorage` is an `ABC` declaring seven abstract operations.
`JsonStateStorage` overrides all seven. `SqliteStateStorage` defines only
`__init__`, `_init_db`, `save_state`, `load_state`, `get_related_tasks` and
`search_task_history`: it overrides neither `create_checkpoint` nor
`restore_checkpoint` nor `list_checkpoints`, even though `_init_db` creates a
`checkpoints` table and `AgentConfig.state_storage.type` admits `"sqlite"`
(so `Agent.__init__` will try to instantiate the still-abstract class). The
method-name sets below are transcribed from the three class bodies.
-/

/-- The abstract operations declared by the `StateStorage` ABC. -/
def stateStorageAbstractMethods : List String :=
  ["save_state", "load_state", "create_checkpoint", "restore_checkpoint",
   "list_checkpoints", "get_related_tasks", "search_task_history"]

/-- The methods defined in the body of `JsonStateStorage`. -/
def jsonStateStorageMethods : List String :=
  ["save_state", "load_state", "create_checkpoint", "restore_checkpoint",
   "list_checkpoints", "get_related_tasks", "search_task_history",
   "_compute_context_similarity"]

/-- The methods defined in the body of `SqliteStateStorage`. -/
def sqliteStateStorageMethods : List String :=
  ["_init_db", "save_state", "load_state", "get_related_tasks", "search_task_history"]

/-- Claim C1 evaluated against the class bodies: `JsonStateStorage` overrides
every abstract `StateStorage` operation, but `SqliteStateStorage` does not —
`create_checkpoint`, `restore_checkpoint` and `list_checkpoints` are absent
from it, so the two backends cannot implement every operation with the same
guarantees, let alone produce equivalent query results. -/
theorem sqlite_backend_missing_checkpoint_operations :
    stateStorageAbstractMethods.all (fun m => jsonStateStorageMethods.contains m) = true ∧
      stateStorageAbstractMethods.all (fun m => sqliteStateStorageMethods.contains m) = false ∧
      sqliteStateStorageMethods.contains "create_checkpoint" = false ∧
      sqliteStateStorageMethods.contains "restore_checkpoint" = false ∧
      sqliteStateStorageMethods.contains "list_checkpoints" = false := by
  refine ⟨by decide, by decide, by decide, by decide, by decide⟩

/-!
`SqliteStateStorage.save_state` / `load_state`, modelled at the level of the
three tables they touch. `save_state` does `INSERT OR REPLACE` into `states`
and `context`, but plain `INSERT` into `messages` — it appends every message
of the snapshot to the `messages` table on every call, without deleting the
rows written by previous saves. `load_state` rebuilds `state["messages"]`
from all rows of the `messages` table for the task, ordered by timestamp.
-/

/-- A row of the `messages` table. -/
structure MessageRow where
  task_id : String
  role : String
  content : String
  timestamp : Nat
  metadata : Metadata
deriving DecidableEq, Repr

/-- The SQLite database: `states` (task_id primary key), the append-only
`messages` table, and `context` ((task_id, key) primary key). The
`checkpoints` and `task_relationships` tables are created by `_init_db` but
`SqliteStateStorage` never writes to them. -/
structure SqliteDB where
  states : List (String × TaskState)
  messages : List MessageRow
  context : List ((String × String) × String)
deriving DecidableEq, Repr

/-- The freshly initialised database. -/
def SqliteDB.empty : SqliteDB := ⟨[], [], []⟩

/-- Model of `SqliteStateStorage.save_state`. -/
def SqliteStateStorage.save_state (task_id : String) (state : TaskState)
    (db : SqliteDB) : SqliteDB :=
  { states := upsert task_id state db.states
    messages := db.messages ++
      state.messages.map (fun m => ⟨task_id, m.role, m.content, m.timestamp, m.metadata⟩)
    context := state.context.foldl (fun acc kv => upsert (task_id, kv.1) kv.2 acc) db.context }

/-- Stable insertion into a timestamp-sorted message list (`ORDER BY
timestamp`; SQLite leaves the order of equal timestamps unspecified, and the
claims below depend only on the multiset of rows returned). -/
def insertByTimestamp (m : Message) : List Message → List Message
  | [] => [m]
  | x :: xs => if x.timestamp ≤ m.timestamp then x :: insertByTimestamp m xs
               else m :: x :: xs

def sortByTimestamp : List Message → List Message
  | [] => []
  | m :: ms => insertByTimestamp m (sortByTimestamp ms)

/-- Model of `SqliteStateStorage.load_state`: the JSON blob from `states` with its
`messages` and `context` fields replaced by the table contents. -/
def SqliteStateStorage.load_state (task_id : String) (db : SqliteDB) : Option TaskState :=
  match db.states.lookup task_id with
  | none => none
  | some st =>
    some { st with
      messages := sortByTimestamp
        ((db.messages.filter (fun r => r.task_id == task_id)).map
          (fun r => ⟨r.role, r.content, r.timestamp, r.metadata⟩))
      context := (db.context.filter (fun kv => kv.1.1 == task_id)).map
        (fun kv => (kv.1.2, kv.2)) }

/-- The snapshot used as the failing input for claim C4: one message, as the
engine would have after its first `save_message`. -/
def c4Snapshot : TaskState :=
  { TaskState.init with
    task := some "demo"
    task_id := some "t"
    messages := [⟨"system", "Starting task: demo", 0, []⟩] }

/-- Claim C4 evaluated at the failing input: saving the same snapshot twice in
the SQLite backend does not leave exactly that snapshot stored — the repeated
`INSERT` into `messages` duplicates the message rows, so `load_state` returns
a snapshot with two copies of the single message instead of `c4Snapshot`. -/
theorem sqlite_save_state_duplicates_messages :
    (SqliteStateStorage.load_state "t"
        (SqliteStateStorage.save_state "t" c4Snapshot
          (SqliteStateStorage.save_state "t" c4Snapshot SqliteDB.empty))) ≠
      some c4Snapshot ∧
      ((SqliteStateStorage.load_state "t"
          (SqliteStateStorage.save_state "t" c4Snapshot
            (SqliteStateStorage.save_state "t" c4Snapshot SqliteDB.empty))).map
        (fun st => st.messages.length)) = some 2 ∧
      (SqliteStateStorage.load_state "t"
          (SqliteStateStorage.save_state "t" c4Snapshot SqliteDB.empty)) =
        some c4Snapshot := by
  refine ⟨by decide, by decide, by decide⟩

/-!
The engine loop of `Agent.execute_task` (`llm_agent/agent.py`).

`BaseTool.execute` (from `llm_agent/tools/base.py`) wraps the subclass hook
`_execute` in `try/except Exception` and turns an escaping exception into a
failed `ToolResult`; the hook is therefore modelled as `Except String
ToolResult` and `execute` as a total function.

Each iteration of the loop is `engineIteration`. Besides the updated
`TaskState` and `Agent.checkpoint_count` it produces the ordered list of
observable events of the iteration: a `bpCheck t` event marks a call to
`Agent._handle_debug_break` at interception point `t`, `oracleCall` the call
to `llm.get_next_action`, `stateSaved` a `storage.save_state`,
`approvalRequest` a call to `approval_callback.get_approval`, `toolExec` the
`await tool.execute(...)`, and `checkpointCreated` a successful
`storage.create_checkpoint` from `_create_checkpoint`.
-/

/-- A tool registered with the agent: its name and its `_execute` hook. -/
structure BaseTool where
  name : String
  «_execute» : Args → Except String ToolResult

/-- Model of `BaseTool.execute`: runs `_execute` and converts an escaping exception
into `ToolResult(success=False, message=f"Tool execution failed: {e}",
data={"error": str(e)})`. -/
def BaseTool.execute (t : BaseTool) (args : Args) : ToolResult :=
  match t.«_execute» args with
  | Except.ok r => r
  | Except.error e => ⟨false, "Tool execution failed: " ++ e, some e⟩

/-- The oracle's `Action` (`LLMResponse`) contract. -/
structure Action where
  tool_name : Option String
  tool_args : Args
  is_complete : Bool
  result : Option String
  thoughts : String

/-- Model of `BreakpointType` from `llm_agent/debug/__init__.py`. -/
inductive BreakpointType
  | TOOL
  | STATE
  | LLM
deriving DecidableEq, Repr

/-- Engine configuration surface consumed by the loop. -/
structure AgentConfig where
  auto_approve_tools : Bool
  max_consecutive_auto_approvals : Nat
  auto_checkpoint : Bool
  max_checkpoints : Nat

/-- Observable events of one loop iteration, in program order. -/
inductive Event
  | bpCheck (t : BreakpointType)
  | oracleCall
  | approvalRequest (tool_name : String)
  | toolExec (tool_name : String)
  | stateSaved
  | checkpointCreated (description : String)
deriving DecidableEq, Repr

/-- How one iteration of the `while` body ends: `completed` is the `return`
in the `is_complete` branch, `fatal` an exception escaping the body (the
unknown-tool `ValueError`), `advance` falling through (or `continue`) to the
next iteration. -/
inductive IterOutcome
  | completed (result : String)
  | fatal (message : String)
  | advance
deriving DecidableEq, Repr

/-- Python string interpolation of an `Optional[str]`. -/
def pyStr : Option String → String
  | some s => s
  | none => "None"

/-- Python `action.result or action.thoughts`: the empty string is falsy. -/
def pyOr (r : Option String) (t : String) : String :=
  match r with
  | some v => if v = "" then t else v
  | none => t

structure IterResult where
  state : TaskState
  checkpoint_count : Nat
  events : List Event
  outcome : IterOutcome

/-- One iteration of the `execute_task` loop body, lines 168–258 of
`llm_agent/agent.py`, with `action` the oracle's answer for this iteration
and `now` the injected clock value. -/
def engineIteration (cfg : AgentConfig) (tools : List (String × BaseTool))
    (approval : String → Args → Bool) (action : Action) (now : Nat)
    (s : TaskState) (cc : Nat) : IterResult :=
  let s1 := s.add_message "assistant" action.thoughts [] now
  let evs0 := [Event.bpCheck BreakpointType.LLM, Event.oracleCall, Event.stateSaved]
  if action.is_complete then
    let s2 := (s1.mark_complete now).add_message "system"
      ("Task completed: " ++ pyStr action.result) [("result", action.result)] now
    ⟨s2, cc, evs0 ++ [Event.stateSaved], IterOutcome.completed (pyOr action.result action.thoughts)⟩
  else
    match action.tool_name with
    | none => ⟨s1, cc, evs0, IterOutcome.advance⟩
    | some tn =>
      match List.lookup tn tools with
      | none => ⟨s1, cc, evs0, IterOutcome.fatal ("Unknown tool: " ++ tn)⟩
      | some tool =>
        let evs1 := evs0 ++ [Event.bpCheck BreakpointType.TOOL]
        let runTool : TaskState → List Event → IterResult := fun s2 evs =>
          let result := tool.execute action.tool_args
          let s3 := s2.add_tool_result tn result action.tool_args now
          let evs2 := evs ++ [Event.toolExec tn, Event.stateSaved]
          if cfg.auto_checkpoint then
            if cfg.max_checkpoints ≤ cc then ⟨s3, cc, evs2, IterOutcome.advance⟩
            else ⟨s3, cc + 1,
              evs2 ++ [Event.checkpointCreated ("After executing tool: " ++ tn)],
              IterOutcome.advance⟩
          else ⟨s3, cc, evs2, IterOutcome.advance⟩
        if cfg.auto_approve_tools = false ∨
            cfg.max_consecutive_auto_approvals ≤ s1.consecutive_auto_approvals then
          let evs2 := evs1 ++ [Event.approvalRequest tn]
          if approval tn action.tool_args then
            runTool s1.reset_auto_approvals evs2
          else ⟨s1, cc, evs2, IterOutcome.advance⟩
        else
          runTool s1.increment_auto_approvals evs1

structure LoopResult where
  state : TaskState
  iterations : Nat
  checkpoint_count : Nat
  outcome : Option (Except String String)

/-- The `while not self.state.is_complete and iteration < max_iterations`
loop, driven by `oracle` (the iteration number and current state determine the
oracle's `Action`; the iteration number also serves as the clock). `fuel` is
`max_iterations - iteration`; outcome `none` means the loop condition became
false. -/
def engineLoop (cfg : AgentConfig) (tools : List (String × BaseTool))
    (approval : String → Args → Bool) (oracle : Nat → TaskState → Action) :
    (fuel : Nat) → (iteration : Nat) → TaskState → Nat → LoopResult
  | 0, iteration, s, cc => ⟨s, iteration, cc, none⟩
  | fuel + 1, iteration, s, cc =>
    if s.is_complete then ⟨s, iteration, cc, none⟩
    else
      let it := iteration + 1
      let r := engineIteration cfg tools approval (oracle it s) it s cc
      match r.outcome with
      | IterOutcome.completed v => ⟨r.state, it, r.checkpoint_count, some (Except.ok v)⟩
      | IterOutcome.fatal e => ⟨r.state, it, r.checkpoint_count, some (Except.error e)⟩
      | IterOutcome.advance => engineLoop cfg tools approval oracle fuel it r.state r.checkpoint_count

/-- Model of `Agent.execute_task`: starts the task, stores the initial system message,
optionally merges related-task context, runs the loop (`max_iterations` is the
literal 50 of the source), and applies the `except` clause — any exception
marks the state failed with the exception message and is re-raised — plus the
iteration-limit epilogue, in which `mark_failed("Maximum iterations reached")`
is followed by `raise RuntimeError("Task execution exceeded maximum
iterations")`, which the same `except` clause then marks again. The returned
`Nat` is the number of loop iterations executed. -/
def Agent.execute_task (cfg : AgentConfig) (tools : List (String × BaseTool))
    (approval : String → Args → Bool) (oracle : Nat → TaskState → Action)
    (task task_id : String) (related_context : Option String) (s0 : TaskState) :
    TaskState × Nat × Except String (Option String) :=
  let sA := s0.start_new_task task task_id 0
  let sB := sA.add_message "system" ("Starting task: " ++ task) [] 0
  let sC := match related_context with
            | some v => sB.update_context [("related_tasks", v)]
            | none => sB
  let max_iterations := 50
  let lr := engineLoop cfg tools approval oracle max_iterations 0 sC 0
  match lr.outcome with
  | some (Except.ok v) => (lr.state, lr.iterations, Except.ok (some v))
  | some (Except.error e) => (lr.state.mark_failed e lr.iterations, lr.iterations, Except.error e)
  | none =>
    if max_iterations ≤ lr.iterations then
      ((lr.state.mark_failed "Maximum iterations reached" lr.iterations).mark_failed
          "Task execution exceeded maximum iterations" lr.iterations,
        lr.iterations, Except.error "Task execution exceeded maximum iterations")
    else (lr.state, lr.iterations, Except.ok none)

/-- The iteration's event list opens with the `LLM` breakpoint check followed
by the oracle call. -/
def startsWithLLMCheckThenOracle : List Event → Bool
  | Event.bpCheck BreakpointType.LLM :: Event.oracleCall :: _ => true
  | _ => false

/-- Whether a breakpoint check at interception point `STATE` occurs. -/
def containsStateCheck : List Event → Bool
  | [] => false
  | Event.bpCheck BreakpointType.STATE :: _ => true
  | _ :: rest => containsStateCheck rest

/-- Every `toolExec` is preceded by a breakpoint check at `TOOL`. -/
def toolBpPrecedesExec (seen : Bool) : List Event → Bool
  | [] => true
  | Event.bpCheck BreakpointType.TOOL :: rest => toolBpPrecedesExec true rest
  | Event.toolExec _ :: rest => seen && toolBpPrecedesExec seen rest
  | _ :: rest => toolBpPrecedesExec seen rest

/-- Every `toolExec` is preceded by an approval request. -/
def approvalPrecedesExec (seen : Bool) : List Event → Bool
  | [] => true
  | Event.approvalRequest _ :: rest => approvalPrecedesExec true rest
  | Event.toolExec _ :: rest => seen && approvalPrecedesExec seen rest
  | _ :: rest => approvalPrecedesExec seen rest

/-- Number of `get_approval` invocations in the iteration. -/
def countApprovalRequests : List Event → Nat
  | [] => 0
  | Event.approvalRequest _ :: rest => countApprovalRequests rest + 1
  | _ :: rest => countApprovalRequests rest

/-- Whether the tool was executed in the iteration. -/
def containsToolExec : List Event → Bool
  | [] => false
  | Event.toolExec _ :: _ => true
  | _ :: rest => containsToolExec rest

/-- Counterexample to claim C8, at a concrete iteration in which a tool is
dispatched and executed (auto-approval path): the iteration performs no
breakpoint check at interception point `STATE` at all — `execute_task` only
ever calls `_handle_debug_break` with `BreakpointType.LLM` and
`BreakpointType.TOOL`. -/
theorem no_state_breakpoint_check_counterexample :
    containsToolExec (engineIteration ⟨true, 3, false, 10⟩
        [("echo", ⟨"echo", fun _ => Except.ok ⟨true, "ok", none⟩⟩)]
        (fun _ _ => true) ⟨some "echo", [], false, none, "th"⟩ 1 TaskState.init 0).events = true ∧
      containsStateCheck (engineIteration ⟨true, 3, false, 10⟩
        [("echo", ⟨"echo", fun _ => Except.ok ⟨true, "ok", none⟩⟩)]
        (fun _ _ => true) ⟨some "echo", [], false, none, "th"⟩ 1 TaskState.init 0).events = false := by
  constructor
  · rfl
  · rfl

/-- Claim C8 as amended: in every iteration the breakpoint check at `LLM`
comes first, before the oracle call; every tool execution is preceded by a
breakpoint check at `TOOL`; and no breakpoint check at `STATE` occurs
anywhere in the iteration. -/
theorem breakpoint_check_placement (cfg : AgentConfig) (tools : List (String × BaseTool))
    (approval : String → Args → Bool) (action : Action) (now : Nat)
    (s : TaskState) (cc : Nat) :
    startsWithLLMCheckThenOracle
        (engineIteration cfg tools approval action now s cc).events = true ∧
      toolBpPrecedesExec false
        (engineIteration cfg tools approval action now s cc).events = true ∧
      containsStateCheck
        (engineIteration cfg tools approval action now s cc).events = false := by
  unfold engineIteration
  cases hic : action.is_complete
  · cases htn : action.tool_name with
    | none =>
      refine ⟨rfl, rfl, rfl⟩
    | some tn =>
      cases hl : List.lookup tn tools with
      | none =>
        simp only [Bool.false_eq_true, if_false, htn, hl]
        refine ⟨rfl, rfl, rfl⟩
      | some tool =>
        simp only [Bool.false_eq_true, if_false, htn, hl]
        by_cases hcond : cfg.auto_approve_tools = false ∨
            cfg.max_consecutive_auto_approvals ≤
              (s.add_message "assistant" action.thoughts [] now).consecutive_auto_approvals
        · simp only [if_pos hcond]
          cases happ : approval tn action.tool_args
          · simp only [Bool.false_eq_true, if_false]
            refine ⟨rfl, rfl, rfl⟩
          · simp only [if_true]
            cases hack : cfg.auto_checkpoint
            · simp only [Bool.false_eq_true, if_false]
              refine ⟨rfl, rfl, rfl⟩
            · simp only [if_true]
              by_cases hmax : cfg.max_checkpoints ≤ cc
              · simp only [if_pos hmax]
                refine ⟨rfl, rfl, rfl⟩
              · simp only [if_neg hmax]
                refine ⟨rfl, rfl, rfl⟩
        · simp only [if_neg hcond]
          cases hack : cfg.auto_checkpoint
          · simp only [Bool.false_eq_true, if_false]
            refine ⟨rfl, rfl, rfl⟩
          · simp only [if_true]
            by_cases hmax : cfg.max_checkpoints ≤ cc
            · simp only [if_pos hmax]
              refine ⟨rfl, rfl, rfl⟩
            · simp only [if_neg hmax]
              refine ⟨rfl, rfl, rfl⟩
  · simp only [if_true]
    refine ⟨rfl, rfl, rfl⟩

/-- Claim C2: when a dispatched tool's inner `_execute` raises, the exception
is converted into a `ToolResult` with `success = false` (message `"Tool
execution failed: ..."`), the exception does not terminate the loop (the
iteration ends in `advance`), and the task is not marked failed by it. The
hypothesis `happr` states the dispatch is not vetoed: whenever the engine asks
for approval, it is granted. -/
theorem tool_exception_becomes_failed_result (cfg : AgentConfig)
    (tools : List (String × BaseTool)) (approval : String → Args → Bool)
    (action : Action) (now : Nat) (s : TaskState) (cc : Nat)
    (tn : String) (tool : BaseTool) (err : String)
    (hic : action.is_complete = false)
    (htn : action.tool_name = some tn)
    (hl : List.lookup tn tools = some tool)
    (hexec : tool.«_execute» action.tool_args = Except.error err)
    (happr : (cfg.auto_approve_tools = false ∨
        cfg.max_consecutive_auto_approvals ≤ s.consecutive_auto_approvals) →
      approval tn action.tool_args = true) :
    (engineIteration cfg tools approval action now s cc).outcome = IterOutcome.advance ∧
      (engineIteration cfg tools approval action now s cc).state.is_failed = s.is_failed ∧
      (engineIteration cfg tools approval action now s cc).state.tool_executions =
        s.tool_executions ++
          [⟨tn, action.tool_args, ⟨false, "Tool execution failed: " ++ err, some err⟩, now⟩] := by
  have hres : tool.execute action.tool_args =
      ⟨false, "Tool execution failed: " ++ err, some err⟩ := by
    simp [BaseTool.execute, hexec]
  unfold engineIteration
  simp only [hic, Bool.false_eq_true, if_false, htn, hl]
  by_cases hcond : cfg.auto_approve_tools = false ∨
      cfg.max_consecutive_auto_approvals ≤
        (s.add_message "assistant" action.thoughts [] now).consecutive_auto_approvals
  · have happ : approval tn action.tool_args = true := by
      apply happr
      simpa using hcond
    simp only [if_pos hcond, happ, if_true, hres]
    cases hack : cfg.auto_checkpoint
    · simp only [Bool.false_eq_true, if_false]
      exact ⟨by trivial, by simp, by simp⟩
    · by_cases hmax : cfg.max_checkpoints ≤ cc
      · simp only [if_true, if_pos hmax]
        exact ⟨by trivial, by simp, by simp⟩
      · simp only [if_true, if_neg hmax]
        exact ⟨by trivial, by simp, by simp⟩
  · simp only [if_neg hcond, hres]
    cases hack : cfg.auto_checkpoint
    · simp only [Bool.false_eq_true, if_false]
      exact ⟨by trivial, by simp, by simp⟩
    · by_cases hmax : cfg.max_checkpoints ≤ cc
      · simp only [if_true, if_pos hmax]
        exact ⟨by trivial, by simp, by simp⟩
      · simp only [if_true, if_neg hmax]
        exact ⟨by trivial, by simp, by simp⟩

/-- Witness for C2: a tool whose `_execute` raises, dispatched with an
always-granting approval callback. -/
theorem tool_exception_becomes_failed_result_witness :
    (engineIteration ⟨false, 3, false, 10⟩
        [("boom", ⟨"boom", fun _ => Except.error "kaput"⟩)]
        (fun _ _ => true) ⟨some "boom", [], false, none, "th"⟩ 1 TaskState.init 0).outcome =
      IterOutcome.advance ∧
      (engineIteration ⟨false, 3, false, 10⟩
          [("boom", ⟨"boom", fun _ => Except.error "kaput"⟩)]
          (fun _ _ => true) ⟨some "boom", [], false, none, "th"⟩ 1 TaskState.init 0).state.is_failed =
        TaskState.init.is_failed ∧
      (engineIteration ⟨false, 3, false, 10⟩
          [("boom", ⟨"boom", fun _ => Except.error "kaput"⟩)]
          (fun _ _ => true) ⟨some "boom", [], false, none, "th"⟩ 1 TaskState.init 0).state.tool_executions =
        TaskState.init.tool_executions ++
          [⟨"boom", [], ⟨false, "Tool execution failed: " ++ "kaput", some "kaput"⟩, 1⟩] :=
  tool_exception_becomes_failed_result ⟨false, 3, false, 10⟩
    [("boom", ⟨"boom", fun _ => Except.error "kaput"⟩)]
    (fun _ _ => true) ⟨some "boom", [], false, none, "th"⟩ 1 TaskState.init 0
    "boom" ⟨"boom", fun _ => Except.error "kaput"⟩ "kaput"
    rfl rfl rfl rfl (fun _ => rfl)

/-- Claim C6: with `auto_approve_tools = false`, a resolved tool dispatch
invokes `get_approval` exactly once, and no tool executes unapproved; on
rejection the tool does not execute, `tool_executions` is unchanged, the
auto-approval counter is neither incremented nor reset, and the iteration
proceeds (`continue`); on a grant the counter is reset to 0. -/
theorem approval_gating_exactly_once (cfg : AgentConfig)
    (tools : List (String × BaseTool)) (approval : String → Args → Bool)
    (action : Action) (now : Nat) (s : TaskState) (cc : Nat)
    (tn : String) (tool : BaseTool) (b : Bool)
    (hauto : cfg.auto_approve_tools = false)
    (hic : action.is_complete = false)
    (htn : action.tool_name = some tn)
    (hl : List.lookup tn tools = some tool)
    (happ : approval tn action.tool_args = b) :
    countApprovalRequests (engineIteration cfg tools approval action now s cc).events = 1 ∧
      approvalPrecedesExec false
        (engineIteration cfg tools approval action now s cc).events = true ∧
      (if b then
        (engineIteration cfg tools approval action now s cc).state.consecutive_auto_approvals = 0
       else
        (engineIteration cfg tools approval action now s cc).outcome = IterOutcome.advance ∧
          (engineIteration cfg tools approval action now s cc).state.tool_executions =
            s.tool_executions ∧
          (engineIteration cfg tools approval action now s cc).state.consecutive_auto_approvals =
            s.consecutive_auto_approvals ∧
          containsToolExec (engineIteration cfg tools approval action now s cc).events = false) := by
  have hcond : cfg.auto_approve_tools = false ∨
      cfg.max_consecutive_auto_approvals ≤
        (s.add_message "assistant" action.thoughts [] now).consecutive_auto_approvals :=
    Or.inl hauto
  unfold engineIteration
  simp only [hic, Bool.false_eq_true, if_false, htn, hl, if_pos hcond]
  cases b
  · simp only [happ, Bool.false_eq_true, if_false]
    exact ⟨by trivial, by trivial, by trivial, by simp, by simp, by trivial⟩
  · simp only [happ, if_true]
    cases hack : cfg.auto_checkpoint
    · simp only [Bool.false_eq_true, if_false]
      exact ⟨by trivial, by trivial, by simp⟩
    · by_cases hmax : cfg.max_checkpoints ≤ cc
      · simp only [if_true, if_pos hmax]
        exact ⟨by trivial, by trivial, by simp⟩
      · simp only [if_true, if_neg hmax]
        exact ⟨by trivial, by trivial, by simp⟩

/-- Witness for C6, on the rejection branch. -/
theorem approval_gating_exactly_once_witness :
    countApprovalRequests (engineIteration ⟨false, 3, false, 10⟩
        [("echo", ⟨"echo", fun _ => Except.ok ⟨true, "ok", none⟩⟩)]
        (fun _ _ => false) ⟨some "echo", [], false, none, "th"⟩ 1 TaskState.init 0).events = 1 ∧
      approvalPrecedesExec false (engineIteration ⟨false, 3, false, 10⟩
        [("echo", ⟨"echo", fun _ => Except.ok ⟨true, "ok", none⟩⟩)]
        (fun _ _ => false) ⟨some "echo", [], false, none, "th"⟩ 1 TaskState.init 0).events = true ∧
      (if false then
        (engineIteration ⟨false, 3, false, 10⟩
          [("echo", ⟨"echo", fun _ => Except.ok ⟨true, "ok", none⟩⟩)]
          (fun _ _ => false) ⟨some "echo", [], false, none, "th"⟩ 1 TaskState.init 0).state.consecutive_auto_approvals = 0
       else
        (engineIteration ⟨false, 3, false, 10⟩
          [("echo", ⟨"echo", fun _ => Except.ok ⟨true, "ok", none⟩⟩)]
          (fun _ _ => false) ⟨some "echo", [], false, none, "th"⟩ 1 TaskState.init 0).outcome = IterOutcome.advance ∧
          (engineIteration ⟨false, 3, false, 10⟩
            [("echo", ⟨"echo", fun _ => Except.ok ⟨true, "ok", none⟩⟩)]
            (fun _ _ => false) ⟨some "echo", [], false, none, "th"⟩ 1 TaskState.init 0).state.tool_executions =
            TaskState.init.tool_executions ∧
          (engineIteration ⟨false, 3, false, 10⟩
            [("echo", ⟨"echo", fun _ => Except.ok ⟨true, "ok", none⟩⟩)]
            (fun _ _ => false) ⟨some "echo", [], false, none, "th"⟩ 1 TaskState.init 0).state.consecutive_auto_approvals =
            TaskState.init.consecutive_auto_approvals ∧
          containsToolExec (engineIteration ⟨false, 3, false, 10⟩
            [("echo", ⟨"echo", fun _ => Except.ok ⟨true, "ok", none⟩⟩)]
            (fun _ _ => false) ⟨some "echo", [], false, none, "th"⟩ 1 TaskState.init 0).events = false) :=
  approval_gating_exactly_once ⟨false, 3, false, 10⟩
    [("echo", ⟨"echo", fun _ => Except.ok ⟨true, "ok", none⟩⟩)]
    (fun _ _ => false) ⟨some "echo", [], false, none, "th"⟩ 1 TaskState.init 0
    "echo" ⟨"echo", fun _ => Except.ok ⟨true, "ok", none⟩⟩ false
    rfl rfl rfl rfl rfl

/-- If the oracle's action does not signal completion and any named tool
resolves, the iteration neither returns nor raises, and leaves `is_complete`
untouched. -/
theorem engineIteration_advance (cfg : AgentConfig) (tools : List (String × BaseTool))
    (approval : String → Args → Bool) (action : Action) (now : Nat)
    (s : TaskState) (cc : Nat)
    (hic : action.is_complete = false)
    (ht : ∀ tn, action.tool_name = some tn → (List.lookup tn tools).isSome = true) :
    (engineIteration cfg tools approval action now s cc).outcome = IterOutcome.advance ∧
      (engineIteration cfg tools approval action now s cc).state.is_complete = s.is_complete := by
  unfold engineIteration
  simp only [hic, Bool.false_eq_true, if_false]
  cases htn : action.tool_name with
  | none => exact ⟨rfl, by simp⟩
  | some tn =>
    cases hl : List.lookup tn tools with
    | none => exact absurd (ht tn htn) (by simp [hl])
    | some tool =>
      simp only [htn, hl]
      by_cases hcond : cfg.auto_approve_tools = false ∨
          cfg.max_consecutive_auto_approvals ≤
            (s.add_message "assistant" action.thoughts [] now).consecutive_auto_approvals
      · simp only [if_pos hcond]
        cases happ : approval tn action.tool_args
        · simp only [Bool.false_eq_true, if_false]
          exact ⟨by trivial, by simp⟩
        · simp only [if_true]
          cases hack : cfg.auto_checkpoint
          · simp only [Bool.false_eq_true, if_false]
            exact ⟨by trivial, by simp⟩
          · by_cases hmax : cfg.max_checkpoints ≤ cc
            · simp only [if_true, if_pos hmax]
              exact ⟨by trivial, by simp⟩
            · simp only [if_true, if_neg hmax]
              exact ⟨by trivial, by simp⟩
      · simp only [if_neg hcond]
        cases hack : cfg.auto_checkpoint
        · simp only [Bool.false_eq_true, if_false]
          exact ⟨by trivial, by simp⟩
        · by_cases hmax : cfg.max_checkpoints ≤ cc
          · simp only [if_true, if_pos hmax]
            exact ⟨by trivial, by simp⟩
          · simp only [if_true, if_neg hmax]
            exact ⟨by trivial, by simp⟩

/-- Under the same oracle hypotheses the loop consumes all its fuel: every
iteration advances, so the loop runs `fuel` more iterations and exits with the
loop condition false. -/
theorem engineLoop_exhausts_fuel (cfg : AgentConfig) (tools : List (String × BaseTool))
    (approval : String → Args → Bool) (oracle : Nat → TaskState → Action)
    (hN : ∀ i s, (oracle i s).is_complete = false)
    (hT : ∀ i s tn, (oracle i s).tool_name = some tn → (List.lookup tn tools).isSome = true) :
    ∀ (fuel iteration : Nat) (s : TaskState) (cc : Nat), s.is_complete = false →
      (engineLoop cfg tools approval oracle fuel iteration s cc).iterations = iteration + fuel ∧
        (engineLoop cfg tools approval oracle fuel iteration s cc).outcome = none := by
  intro fuel
  induction fuel with
  | zero => intro iteration s cc _; exact ⟨rfl, rfl⟩
  | succ fuel ih =>
    intro iteration s cc hs
    have hadv := engineIteration_advance cfg tools approval (oracle (iteration + 1) s)
      (iteration + 1) s cc (hN (iteration + 1) s) (hT (iteration + 1) s)
    unfold engineLoop
    simp only [hs, Bool.false_eq_true, if_false]
    rw [hadv.1]
    have hnext := ih (iteration + 1)
      (engineIteration cfg tools approval (oracle (iteration + 1) s) (iteration + 1) s cc).state
      (engineIteration cfg tools approval (oracle (iteration + 1) s) (iteration + 1) s cc).checkpoint_count
      (by rw [hadv.2]; exact hs)
    refine ⟨?_, hnext.2⟩
    rw [hnext.1]
    omega

/-- Claim C7: if the oracle never returns `is_complete = true` (and names only
registered tools, so that no other fatal error cuts the run short),
`execute_task` performs exactly `max_iterations = 50` loop iterations, marks
the `TaskState` failed and raises `"Task execution exceeded maximum
iterations"` to the caller, with `is_failed = true` afterwards. -/
theorem iteration_limit_marks_failed (cfg : AgentConfig) (tools : List (String × BaseTool))
    (approval : String → Args → Bool) (oracle : Nat → TaskState → Action)
    (task task_id : String) (related_context : Option String) (s0 : TaskState)
    (hN : ∀ i s, (oracle i s).is_complete = false)
    (hT : ∀ i s tn, (oracle i s).tool_name = some tn → (List.lookup tn tools).isSome = true) :
    (Agent.execute_task cfg tools approval oracle task task_id related_context s0).2.1 = 50 ∧
      (Agent.execute_task cfg tools approval oracle task task_id related_context s0).2.2 =
        Except.error "Task execution exceeded maximum iterations" ∧
      (Agent.execute_task cfg tools approval oracle task task_id related_context s0).1.is_failed =
        true ∧
      (Agent.execute_task cfg tools approval oracle task task_id related_context s0).1.is_complete =
        true := by
  unfold Agent.execute_task
  cases related_context with
  | none =>
    have hs : ((s0.start_new_task task task_id 0).add_message "system"
        ("Starting task: " ++ task) [] 0).is_complete = false := by
      simp [TaskState.start_new_task]
    have hloop := engineLoop_exhausts_fuel cfg tools approval oracle hN hT 50 0
      ((s0.start_new_task task task_id 0).add_message "system" ("Starting task: " ++ task) [] 0)
      0 hs
    simp only [hloop.2, hloop.1]
    exact ⟨rfl, rfl, rfl, rfl⟩
  | some v =>
    have hs : (((s0.start_new_task task task_id 0).add_message "system"
        ("Starting task: " ++ task) [] 0).update_context [("related_tasks", v)]).is_complete =
          false := by
      simp [TaskState.start_new_task, TaskState.update_context, TaskState.add_message]
    have hloop := engineLoop_exhausts_fuel cfg tools approval oracle hN hT 50 0
      (((s0.start_new_task task task_id 0).add_message "system"
        ("Starting task: " ++ task) [] 0).update_context [("related_tasks", v)])
      0 hs
    simp only [hloop.2, hloop.1]
    exact ⟨rfl, rfl, rfl, rfl⟩

/-- Witness for C7: a stub oracle that never signals completion and never
names a tool. -/
theorem iteration_limit_marks_failed_witness :
    ((∀ i s, ((fun (_ : Nat) (_ : TaskState) =>
        Action.mk none [] false none "thinking") i s).is_complete = false)) ∧
      (Agent.execute_task ⟨true, 3, false, 10⟩ [] (fun _ _ => true)
          (fun _ _ => Action.mk none [] false none "thinking")
          "demo" "t" none TaskState.init).2.1 = 50 ∧
      (Agent.execute_task ⟨true, 3, false, 10⟩ [] (fun _ _ => true)
          (fun _ _ => Action.mk none [] false none "thinking")
          "demo" "t" none TaskState.init).2.2 =
        Except.error "Task execution exceeded maximum iterations" ∧
      (Agent.execute_task ⟨true, 3, false, 10⟩ [] (fun _ _ => true)
          (fun _ _ => Action.mk none [] false none "thinking")
          "demo" "t" none TaskState.init).1.is_failed = true := by
  have h := iteration_limit_marks_failed ⟨true, 3, false, 10⟩ [] (fun _ _ => true)
    (fun _ _ => Action.mk none [] false none "thinking") "demo" "t" none TaskState.init
    (fun _ _ => rfl) (fun _ _ tn hcontra => Option.noConfusion hcontra)
  exact ⟨fun _ _ => rfl, h.1, h.2.1, h.2.2.1⟩

end Pythos
